import Mathlib

/-!
# A shallow embedding of `c_src/esqlite3_nif.c`

Definitions below are translated from the NIF source.  Erlang terms are
modelled by `ETerm`, at the granularity at which the NIF inspects them.  The
opaque sqlite3 engine is modelled by a record of deterministic functions
(`Engine`), universally quantified in the theorems; engine handles and
`sqlite3_stmt` pointers are modelled as `Option Nat`, with `none` standing
for a null pointer.  Side effects on engine objects (statement resets,
parameter binds, prepare calls, sleeps, handle closes) are recorded as
explicit event traces, so that "performs no binding", "resets first",
"retries n times" and similar statements can be expressed as facts about the
emitted trace.  Memory allocation is assumed to succeed: `enif_alloc`,
`enif_alloc_env` and `enif_alloc_resource` failures are reported as data in
the source and are orthogonal to every claim treated here.
-/

/-- Dispatch-layer view of an `esqlite_connection` resource: whether the
`commands` queue pointer is non-null (`esqlite_bind`, `esqlite_step` and
`esqlite_column_names` test `stmt->connection->commands` before pushing). -/
structure ConnSt where
  hasCommands : Bool

/-- Dispatch-layer view of an `esqlite_statement` resource: the
`sqlite3_stmt *statement` pointer (nullable, e.g. after finalize) and the
`esqlite_connection *connection` back pointer (nullable). -/
structure StmtSt where
  statement : Option Nat
  connection : Option ConnSt

/-- Erlang terms, at the granularity the NIF inspects them.  Floats are kept
as an opaque payload (`bits`); resource terms carry the state of the resource
they point at. -/
inductive ETerm where
  | eint (n : Int)
  | efloat (bits : Nat)
  | eatom (s : String)
  | elist (ts : List ETerm)
  | ebinary (bs : List Nat)
  | eref (n : Nat)
  | epid (n : Nat)
  | etuple (ts : List ETerm)
  | eresConn (c : ConnSt)
  | eresStmt (s : StmtSt)

/-- Model of `enif_get_int`: succeeds exactly on integer terms.  (The fixed C-`int`
width of the host API is an external-API detail not modelled here; the source
only forwards the call.) -/
def enif_get_int : ETerm → Option Int
  | ETerm.eint n => some n
  | _ => none

/-- Model of `enif_get_double`: succeeds exactly on float terms. -/
def enif_get_double : ETerm → Option Nat
  | ETerm.efloat b => some b
  | _ => none

/-- Model of `enif_get_atom`: succeeds exactly on atom terms (Erlang atoms always fit
the `MAX_ATOM_LENGTH` buffer used by the source). -/
def enif_get_atom : ETerm → Option String
  | ETerm.eatom s => some s
  | _ => none

/-- Model of `enif_is_list`. -/
def enif_is_list : ETerm → Bool
  | ETerm.elist _ => true
  | _ => false

/-- Model of `enif_is_ref`. -/
def enif_is_ref : ETerm → Bool
  | ETerm.eref _ => true
  | _ => false

/-- Model of `enif_get_local_pid`: succeeds exactly on local pid terms. -/
def enif_get_local_pid : ETerm → Option Nat
  | ETerm.epid n => some n
  | _ => none

/-- Model of `enif_get_list_length`: succeeds exactly on (proper) list terms. -/
def enif_get_list_length : ETerm → Option Nat
  | ETerm.elist ts => some ts.length
  | _ => none

/-- The elements of a list term (used only after `enif_get_list_length`
succeeded, mirroring the `enif_get_list_cell` loop of `do_bind`). -/
def listElems : ETerm → List ETerm
  | ETerm.elist ts => ts
  | _ => []

mutual
/-- Flattening of one iolist element into bytes: a byte-sized integer, a
binary, or a nested iolist; anything else makes the iolist invalid. -/
def iolistFlat : ETerm → Option (List Nat)
  | ETerm.eint n => if 0 ≤ n ∧ n < 256 then some [n.toNat] else none
  | ETerm.ebinary bs => some bs
  | ETerm.elist ts => iolistFlatL ts
  | _ => none

/-- Flattening of a list of iolist elements. -/
def iolistFlatL : List ETerm → Option (List Nat)
  | [] => some []
  | t :: ts =>
    match iolistFlat t, iolistFlatL ts with
    | some a, some b => some (a ++ b)
    | _, _ => none
end

/-- Model of `enif_inspect_iolist_as_binary`: a binary, or a list forming a valid
iolist, flattened to its bytes. -/
def enif_inspect_iolist_as_binary : ETerm → Option (List Nat)
  | ETerm.ebinary bs => some bs
  | ETerm.elist ts => iolistFlatL ts
  | _ => none

/-- Characters of an Erlang latin1 string (a proper list of integers in
0..255), as read by `enif_get_string`. -/
def charList : List ETerm → Option (List Nat)
  | [] => some []
  | ETerm.eint n :: ts =>
    if 0 ≤ n ∧ n < 256 then (charList ts).map (fun bs => n.toNat :: bs) else none
  | _ :: _ => none

/-- Model of `enif_get_string` into the `MAX_PATHNAME = 512` byte buffer of `do_open`:
fails (size ≤ 0) on a non-string term or when the string does not fit the
buffer with its terminator.  (Silent truncation at an embedded NUL character
is a C-string detail not modelled; no claim depends on it.) -/
def enif_get_string (t : ETerm) : Option (List Nat) :=
  match t with
  | ETerm.elist ts =>
    match charList ts with
    | some bs => if bs.length + 1 ≤ 512 then some bs else none
    | none => none
  | _ => none

/-- Model of `strlen` on the flattened bytes of a binary: the number of bytes before
the first NUL. -/
def cstrlen : List Nat → Nat
  | [] => 0
  | b :: bs => if b = 0 then 0 else cstrlen bs + 1

/-- Bytes of a Lean string, standing for the latin1 bytes of an atom name
bound as text by `bind_cell`. -/
def strBytes (s : String) : List Nat :=
  s.data.map Char.toNat

/-- Result of one `sqlite3_prepare_v2` call: busy, success (with the
resulting, possibly null, statement pointer), or any other failure code. -/
inductive PrepRc where
  | pbusy
  | pok (stmt : Option Nat)
  | perr
  deriving DecidableEq, Repr

/-- Result code of one `sqlite3_step` call: `SQLITE_DONE`, `SQLITE_BUSY`,
`SQLITE_ROW`, or any other status. -/
inductive StepRc where
  | sdone
  | sbusy
  | srow
  | sother (rc : Nat)
  deriving DecidableEq, Repr

/-- A column value as reported by `sqlite3_column_type` and read by
`make_cell`: integer, float, blob, null, text, or an unrecognized type
code. -/
inductive ColVal where
  | cvInt (n : Int)
  | cvFloat (bits : Nat)
  | cvBlob (bs : List Nat)
  | cvNull
  | cvText (bs : List Nat)
  | cvOther (t : Nat)
  deriving DecidableEq, Repr

/-- A cell of a materialized row, as built by `make_cell`. -/
inductive Cell where
  | cellInt (n : Int)
  | cellFloat (bits : Nat)
  | cellBlob (bs : List Nat)
  | cellAtom (s : String)
  | cellStr (bs : List Nat)
  deriving DecidableEq, Repr

/-- The engine value passed to one of the `sqlite3_bind_*` entry points by
`bind_cell`. -/
inductive BindVal where
  | bint (n : Int)
  | bdouble (bits : Nat)
  | bnull
  | btext (bs : List Nat)
  | bblob (bs : List Nat)
  deriving DecidableEq, Repr

/-- Reply payloads built by the worker-side handlers: `make_atom`,
`make_error_tuple` (`{error, Reason}`), `make_sqlite3_error_tuple`
(`{error, {sqlite3_error, Msg}}`), `make_ok_tuple` around a new statement
resource, a materialized row tuple, and the column-name tuple. -/
inductive Answer where
  | atomA (s : String)
  | errA (reason : String)
  | sqlerrA (msg : String)
  | okStmt (stmt : Option Nat)
  | rowA (cells : List Cell)
  | namesA (ns : List String)
  deriving DecidableEq, Repr

/-- Events recorded by the handlers against the engine and its statement
objects. -/
inductive HEvent where
  | engOpen (path : List Nat)
  | engCloseHandle
  | stmtReset
  | bindCall (i : Nat) (v : BindVal)
  | prepCall (attempt : Nat)
  | sleepCall (usec : Nat)
  | stepCall
  deriving DecidableEq, Repr

/-- The opaque sqlite3 engine, as a record of deterministic functions.  A
handle argument of `none` is a null pointer: the source can and does reach
the engine with null pointers, and the engine's response there is whatever
the quantified function says. -/
structure Engine where
  open_rc : List Nat → Except String Nat
  exec_ok : Option Nat → List Nat → Bool
  close_rc : Option Nat → Bool
  prepare_rc : Option Nat → List Nat → Nat → PrepRc
  step_rc : Option Nat → StepRc
  bind_rc : Option Nat → Nat → BindVal → Int
  param_count : Option Nat → Nat
  columns : Option Nat → List ColVal
  colnames : Option Nat → List String
  errmsg : Option Nat → String

/-- The mutable connection context seen by the worker: the nullable engine
handle `db` and the `alive` flag. -/
structure WConn where
  db : Option Nat
  alive : Bool
  deriving DecidableEq, Repr

/-- Model of `do_open`: parse the filename (failure is the synchronous-looking but
still worker-side `invalid_filename` error), call `sqlite3_open`; on failure
close the partially-opened handle, null the field, and report the engine's
error text; on success store the handle and reply `ok`. -/
def do_open (eng : Engine) (conn : WConn) (arg : ETerm) :
    Answer × WConn × List HEvent :=
  match enif_get_string arg with
  | none => (Answer.errA "invalid_filename", conn, [])
  | some filename =>
    match eng.open_rc filename with
    | Except.error msg =>
      (Answer.sqlerrA msg, { conn with db := none },
        [HEvent.engOpen filename, HEvent.engCloseHandle])
    | Except.ok hdl =>
      (Answer.atomA "ok", { conn with db := some hdl }, [HEvent.engOpen filename])

/-- Model of `do_exec`: run the statement text against the connection handle.  The
source ignores a failed `enif_inspect_iolist_as_binary`; the flattened bytes
default to `[]` in that (caller-unreachable) case. -/
def do_exec (eng : Engine) (conn : WConn) (arg : ETerm) : Answer :=
  let bin := (enif_inspect_iolist_as_binary arg).getD []
  if eng.exec_ok conn.db bin then Answer.atomA "ok"
  else Answer.sqlerrA (eng.errmsg conn.db)

/-- The `do { rc = sqlite3_prepare_v2(...); usleep(retries * 100); }
while (rc == SQLITE_BUSY && retries++ < 100);` loop of `do_prepare`.
`retries` is the source's counter; `rem` is the structural countdown
`100 - retries` encoding the post-incremented `retries++ < 100` bound.
Returns the final rc, the number of `sqlite3_prepare_v2` calls made, and the
event trace. -/
def prepareLoop (rcOf : Nat → PrepRc) : Nat → Nat → PrepRc × Nat × List HEvent
  | retries, 0 =>
    (rcOf retries, 1, [HEvent.prepCall retries, HEvent.sleepCall (retries * 100)])
  | retries, rem + 1 =>
    let rc := rcOf retries
    if rc = PrepRc.pbusy then
      let r := prepareLoop rcOf (retries + 1) rem
      (r.1, r.2.1 + 1,
        HEvent.prepCall retries :: HEvent.sleepCall (retries * 100) :: r.2.2)
    else (rc, 1, [HEvent.prepCall retries, HEvent.sleepCall (retries * 100)])

/-- The full retry loop of `do_prepare`, started at `retries = 0` with the
bound `retries++ < 100`. -/
def prepareRun (rcOf : Nat → PrepRc) : PrepRc × Nat × List HEvent :=
  prepareLoop rcOf 0 100

/-- Model of `do_prepare`: flatten the SQL text, run the bounded busy-retry loop; any
final rc other than `SQLITE_OK` becomes a sqlite3 error with the engine's
message; on success the (possibly null) compiled statement is wrapped in an
`{ok, Stmt}` reply.  (Resource allocation and the `enif_keep_resource`
reference bookkeeping are not claim-relevant and are not traced.) -/
def do_prepare (eng : Engine) (conn : WConn) (arg : ETerm) :
    Answer × List HEvent :=
  let bin := (enif_inspect_iolist_as_binary arg).getD []
  let r := prepareRun (eng.prepare_rc conn.db bin)
  match r.1 with
  | PrepRc.pok st => (Answer.okStmt st, r.2.2)
  | _ => (Answer.sqlerrA (eng.errmsg conn.db), r.2.2)

/-- The shape classification performed by `bind_cell`, in source order:
`enif_get_int`, `enif_get_double`, `enif_get_atom` (the atom `undefined`
becomes SQL NULL, any other atom its text), `enif_inspect_iolist_as_binary`
(a list whose flattened bytes satisfy `strlen == size` becomes text, any
other iolist-binary a blob); anything else is the `-1` unrecognized-shape
failure, for which no `sqlite3_bind_*` entry point is called. -/
def bind_cell_classify (cell : ETerm) : Option BindVal :=
  match enif_get_int cell with
  | some n => some (BindVal.bint n)
  | none =>
    match enif_get_double cell with
    | some b => some (BindVal.bdouble b)
    | none =>
      match enif_get_atom cell with
      | some a =>
        if a = "undefined" then some BindVal.bnull
        else some (BindVal.btext (strBytes a))
      | none =>
        match enif_inspect_iolist_as_binary cell with
        | some bs =>
          if enif_is_list cell = true ∧ cstrlen bs = bs.length then
            some (BindVal.btext bs)
          else some (BindVal.bblob bs)
        | none => none

/-- The positional binding loop of `do_bind` over the cells of the value
list, with the source's 1-based engine index `i+1`.  A cell of unrecognized
shape is `bind_cell`'s `-1` (no engine call, `wrong_type`, stop); otherwise
the engine's bind rc is checked as in the source (`== -1`, then
`!= SQLITE_OK`). -/
def bindLoop (eng : Engine) (db stmt : Option Nat) :
    List ETerm → Nat → Answer × List HEvent
  | [], _ => (Answer.atomA "ok", [])
  | c :: cs, i =>
    match bind_cell_classify c with
    | none => (Answer.errA "wrong_type", [])
    | some v =>
      let r := eng.bind_rc stmt (i + 1) v
      if r = -1 then (Answer.errA "wrong_type", [HEvent.bindCall (i + 1) v])
      else if r ≠ 0 then
        (Answer.sqlerrA (eng.errmsg db), [HEvent.bindCall (i + 1) v])
      else
        let rest := bindLoop eng db stmt cs (i + 1)
        (rest.1, HEvent.bindCall (i + 1) v :: rest.2)

/-- Model of `do_bind`: reject a non-list argument (`bad_arg_list`), reject a length
different from `sqlite3_bind_parameter_count` (`args_wrong_length`) before
any engine mutation, otherwise `sqlite3_reset` the statement and bind the
values positionally in list order. -/
def do_bind (eng : Engine) (db stmt : Option Nat) (arg : ETerm) :
    Answer × List HEvent :=
  let parameter_count := eng.param_count stmt
  match enif_get_list_length arg with
  | none => (Answer.errA "bad_arg_list", [])
  | some list_length =>
    if parameter_count ≠ list_length then (Answer.errA "args_wrong_length", [])
    else
      let r := bindLoop eng db stmt (listElems arg) 0
      (r.1, HEvent.stmtReset :: r.2)

/-- Model of `make_cell`: one column value marshalled into a reply cell; an engine
column type outside the recognized set becomes the `should_not_happen`
atom. -/
def make_cell : ColVal → Cell
  | ColVal.cvInt n => Cell.cellInt n
  | ColVal.cvFloat b => Cell.cellFloat b
  | ColVal.cvBlob bs => Cell.cellBlob bs
  | ColVal.cvNull => Cell.cellAtom "undefined"
  | ColVal.cvText bs => Cell.cellStr bs
  | ColVal.cvOther _ => Cell.cellAtom "should_not_happen"

/-- Model of `do_step`: a single `sqlite3_step` call, mapped to `$done`, `$busy`, a
materialized row of the statement's column values, or an
`unexpected_return_value` error. -/
def do_step (eng : Engine) (stmt : Option Nat) : Answer × List HEvent :=
  match eng.step_rc stmt with
  | StepRc.sdone => (Answer.atomA "$done", [HEvent.stepCall])
  | StepRc.sbusy => (Answer.atomA "$busy", [HEvent.stepCall])
  | StepRc.srow =>
    (Answer.rowA ((eng.columns stmt).map make_cell), [HEvent.stepCall])
  | StepRc.sother _ => (Answer.errA "unexpected_return_value", [HEvent.stepCall])

/-- Model of `do_column_names`: the statement's column names in declaration order. -/
def do_column_names (eng : Engine) (stmt : Option Nat) : Answer :=
  Answer.namesA (eng.colnames stmt)

/-- Model of `do_close`: `sqlite3_close` the connection handle; only on success is the
field nulled. -/
def do_close (eng : Engine) (conn : WConn) : Answer × WConn :=
  if eng.close_rc conn.db then (Answer.atomA "ok", { conn with db := none })
  else (Answer.sqlerrA (eng.errmsg conn.db), conn)

/-- The `command_type` enum of the source. -/
inductive CmdType where
  | cunknown
  | copen
  | cexec
  | cprepare
  | cbind
  | cstep
  | ccolumn_names
  | cclose
  | cstop
  deriving DecidableEq, Repr

/-- An `esqlite_command`: kind, correlation token (`ref`), reply destination
(`pid`), isolated argument copy (`arg`), and the statement pointer for
statement-targeted kinds.  `command_create` initializes `ref` and `arg` to
the zero term and `stmt` to null. -/
structure Cmd where
  type : CmdType
  ref : ETerm
  pid : Nat
  arg : ETerm
  stmt : Option Nat

/-- Model of `evaluate_command`.  The source begins with
`if(!conn->db) make_error_tuple(cmd->env, "database_not_open");` — a
statement that computes the error tuple and discards it (there is no
`return`), so control always falls through to the per-kind `switch`; the
discarded computation is kept here verbatim as `_discarded`. -/
def evaluate_command (eng : Engine) (cmd : Cmd) (conn : WConn) :
    Answer × WConn × List HEvent :=
  let _discarded : Option Answer :=
    if conn.db = none then some (Answer.errA "database_not_open") else none
  match cmd.type with
  | CmdType.copen => do_open eng conn cmd.arg
  | CmdType.cexec => (do_exec eng conn cmd.arg, conn, [])
  | CmdType.cprepare =>
    let r := do_prepare eng conn cmd.arg
    (r.1, conn, r.2)
  | CmdType.cstep =>
    let r := do_step eng cmd.stmt
    (r.1, conn, r.2)
  | CmdType.cbind =>
    let r := do_bind eng conn.db cmd.stmt cmd.arg
    (r.1, conn, r.2)
  | CmdType.ccolumn_names => (do_column_names eng cmd.stmt, conn, [])
  | CmdType.cclose =>
    let r := do_close eng conn
    (r.1, r.2, [])
  | _ => (Answer.errA "invalid_command", conn, [])

/-- An asynchronous reply as sent by `enif_send`: the destination pid and the
`make_answer` pair `{Ref, Answer}`. -/
structure Reply where
  pid : Nat
  ref : ETerm
  ans : Answer

/-- The worker loop body of `esqlite_connection_run` over a finite FIFO
prefix of the command queue: pop each command in order; a `stop` command
exits the loop without a reply; every other command is evaluated and
answered with exactly one `enif_send`, whatever the result. -/
def runLoop (eng : Engine) : WConn → List Cmd → List Reply × WConn
  | conn, [] => ([], conn)
  | conn, cmd :: rest =>
    if cmd.type = CmdType.cstop then ([], conn)
    else
      let e := evaluate_command eng cmd conn
      let r := runLoop eng e.2.1 rest
      ({ pid := cmd.pid, ref := cmd.ref, ans := e.1 } :: r.1, r.2)

/-- Model of `esqlite_connection_run`: sets `alive`, runs the loop, clears `alive`. -/
def esqlite_connection_run (eng : Engine) (conn : WConn) (cmds : List Cmd) :
    List Reply × WConn :=
  let r := runLoop eng { conn with alive := true } cmds
  (r.1, { r.2 with alive := false })

/-- The connection state after the worker has executed a list of commands
(no stop handling; used to state which state each command of a stop-free
prefix is evaluated in). -/
def stateAfter (eng : Engine) : WConn → List Cmd → WConn
  | conn, [] => conn
  | conn, c :: cs => stateAfter eng (evaluate_command eng c conn).2.1 cs

/-- Synchronous results of the NIF entry points: `enif_make_badarg`, an
`{error, Reason}` tuple, or the `ok` acknowledgement. -/
inductive SyncRet where
  | badarg
  | errS (reason : String)
  | okS
  deriving DecidableEq, Repr

/-- Model of `esqlite_open`: argc check, connection resource, ref, pid — then build
the command and push it.  (No check is made for the type of the path
argument, as the source comments itself.) -/
def esqlite_open (argv : List ETerm) : SyncRet × List Cmd :=
  match argv with
  | [a0, a1, a2, a3] =>
    match a0 with
    | ETerm.eresConn _ =>
      if enif_is_ref a1 = false then (SyncRet.errS "invalid_ref", [])
      else
        match enif_get_local_pid a2 with
        | none => (SyncRet.errS "invalid_pid", [])
        | some pid =>
          (SyncRet.okS,
            [{ type := CmdType.copen, ref := a1, pid := pid, arg := a3,
               stmt := none }])
    | _ => (SyncRet.badarg, [])
  | _ => (SyncRet.badarg, [])

/-- Model of `esqlite_exec`: same validation sequence as `esqlite_open`. -/
def esqlite_exec (argv : List ETerm) : SyncRet × List Cmd :=
  match argv with
  | [a0, a1, a2, a3] =>
    match a0 with
    | ETerm.eresConn _ =>
      if enif_is_ref a1 = false then (SyncRet.errS "invalid_ref", [])
      else
        match enif_get_local_pid a2 with
        | none => (SyncRet.errS "invalid_pid", [])
        | some pid =>
          (SyncRet.okS,
            [{ type := CmdType.cexec, ref := a1, pid := pid, arg := a3,
               stmt := none }])
    | _ => (SyncRet.badarg, [])
  | _ => (SyncRet.badarg, [])

/-- Model of `esqlite_prepare`: same validation sequence as `esqlite_open`. -/
def esqlite_prepare (argv : List ETerm) : SyncRet × List Cmd :=
  match argv with
  | [a0, a1, a2, a3] =>
    match a0 with
    | ETerm.eresConn _ =>
      if enif_is_ref a1 = false then (SyncRet.errS "invalid_ref", [])
      else
        match enif_get_local_pid a2 with
        | none => (SyncRet.errS "invalid_pid", [])
        | some pid =>
          (SyncRet.okS,
            [{ type := CmdType.cprepare, ref := a1, pid := pid, arg := a3,
               stmt := none }])
    | _ => (SyncRet.badarg, [])
  | _ => (SyncRet.badarg, [])

/-- Model of `esqlite_bind`: argc, statement resource, ref, pid, build the command
(copying the possibly-null `stmt->statement` into it — the source performs no
`!stmt->statement` check here, unlike `esqlite_step`), then the
connection/queue null checks, then push. -/
def esqlite_bind (argv : List ETerm) : SyncRet × List Cmd :=
  match argv with
  | [a0, a1, a2, a3] =>
    match a0 with
    | ETerm.eresStmt s =>
      if enif_is_ref a1 = false then (SyncRet.errS "invalid_ref", [])
      else
        match enif_get_local_pid a2 with
        | none => (SyncRet.errS "invalid_pid", [])
        | some pid =>
          let cmd : Cmd :=
            { type := CmdType.cbind, ref := a1, pid := pid, arg := a3,
              stmt := s.statement }
          match s.connection with
          | none => (SyncRet.errS "no_connection", [])
          | some conn =>
            if conn.hasCommands = false then
              (SyncRet.errS "no_command_queue", [])
            else (SyncRet.okS, [cmd])
    | _ => (SyncRet.badarg, [])
  | _ => (SyncRet.badarg, [])

/-- Model of `esqlite_step`: argc, statement resource, ref, pid, the
`!stmt->statement` check (`no_prepared_statement`), build the command, the
connection/queue null checks, then push. -/
def esqlite_step (argv : List ETerm) : SyncRet × List Cmd :=
  match argv with
  | [a0, a1, a2] =>
    match a0 with
    | ETerm.eresStmt s =>
      if enif_is_ref a1 = false then (SyncRet.errS "invalid_ref", [])
      else
        match enif_get_local_pid a2 with
        | none => (SyncRet.errS "invalid_pid", [])
        | some pid =>
          match s.statement with
          | none => (SyncRet.errS "no_prepared_statement", [])
          | some st =>
            let cmd : Cmd :=
              { type := CmdType.cstep, ref := a1, pid := pid,
                arg := ETerm.eint 0, stmt := some st }
            match s.connection with
            | none => (SyncRet.errS "no_connection", [])
            | some conn =>
              if conn.hasCommands = false then
                (SyncRet.errS "no_command_queue", [])
              else (SyncRet.okS, [cmd])
    | _ => (SyncRet.badarg, [])
  | _ => (SyncRet.badarg, [])

/-- Model of `esqlite_column_names`: same sequence as `esqlite_step`. -/
def esqlite_column_names (argv : List ETerm) : SyncRet × List Cmd :=
  match argv with
  | [a0, a1, a2] =>
    match a0 with
    | ETerm.eresStmt s =>
      if enif_is_ref a1 = false then (SyncRet.errS "invalid_ref", [])
      else
        match enif_get_local_pid a2 with
        | none => (SyncRet.errS "invalid_pid", [])
        | some pid =>
          match s.statement with
          | none => (SyncRet.errS "no_prepared_statement", [])
          | some st =>
            let cmd : Cmd :=
              { type := CmdType.ccolumn_names, ref := a1, pid := pid,
                arg := ETerm.eint 0, stmt := some st }
            match s.connection with
            | none => (SyncRet.errS "no_connection", [])
            | some conn =>
              if conn.hasCommands = false then
                (SyncRet.errS "no_command_queue", [])
              else (SyncRet.okS, [cmd])
    | _ => (SyncRet.badarg, [])
  | _ => (SyncRet.badarg, [])

/-- Model of `esqlite_close`: connection resource, ref, pid, push.  The source makes
no `argc` check here; it is registered as `close/3` in `nif_funcs`, so the VM
always supplies exactly three arguments — other shapes are unreachable and
mapped to `badarg` for totality. -/
def esqlite_close (argv : List ETerm) : SyncRet × List Cmd :=
  match argv with
  | [a0, a1, a2] =>
    match a0 with
    | ETerm.eresConn _ =>
      if enif_is_ref a1 = false then (SyncRet.errS "invalid_ref", [])
      else
        match enif_get_local_pid a2 with
        | none => (SyncRet.errS "invalid_pid", [])
        | some pid =>
          (SyncRet.okS,
            [{ type := CmdType.cclose, ref := a1, pid := pid,
               arg := ETerm.eint 0, stmt := none }])
    | _ => (SyncRet.badarg, [])
  | _ => (SyncRet.badarg, [])

/-- The public operation surface of `nif_funcs` (excluding `start`, which
enqueues nothing). -/
inductive Op where
  | op_open
  | op_exec
  | op_prepare
  | op_bind
  | op_step
  | op_column_names
  | op_close
  deriving DecidableEq, Repr

/-- The dispatch table of `nif_funcs`. -/
def dispatch : Op → List ETerm → SyncRet × List Cmd
  | Op.op_open, argv => esqlite_open argv
  | Op.op_exec, argv => esqlite_exec argv
  | Op.op_prepare, argv => esqlite_prepare argv
  | Op.op_bind, argv => esqlite_bind argv
  | Op.op_step, argv => esqlite_step argv
  | Op.op_column_names, argv => esqlite_column_names argv
  | Op.op_close, argv => esqlite_close argv

/-- Events of `destruct_esqlite_connection`, in program order. -/
inductive DEvent where
  | qpush (t : CmdType)
  | qsend (t : CmdType)
  | threadJoin
  | threadOptsDestroy
  | qdestroy
  | engClose
  deriving DecidableEq, Repr

/-- Model of `destruct_esqlite_connection`: create a stop command, `queue_push` it,
`queue_send` the same command, join the worker thread, destroy the thread
opts, destroy the queue, and `sqlite3_close` the engine handle if it is
still open. -/
def destruct_esqlite_connection (dbOpen : Bool) : List DEvent :=
  [DEvent.qpush CmdType.cstop, DEvent.qsend CmdType.cstop, DEvent.threadJoin,
   DEvent.threadOptsDestroy, DEvent.qdestroy]
    ++ (if dbOpen then [DEvent.engClose] else [])

/-- Whether a destructor event operates on the command queue. -/
def isQueueOp : DEvent → Bool
  | DEvent.qpush _ => true
  | DEvent.qsend _ => true
  | DEvent.qdestroy => true
  | _ => false

/-- Claim-side transcription of the `bind_cell` classification (C10's words):
shapes tried in the fixed order integer, double, atom, iolist-binary; an
integer binds as an engine integer, a double as a float, the atom `undefined`
as SQL NULL, any other atom as its text, a list whose flattened bytes contain
no NUL as text, any other iolist-binary as a blob; anything else is the
unrecognized-shape failure. -/
def bind_cell_claim : ETerm → Option BindVal
  | ETerm.eint n => some (BindVal.bint n)
  | ETerm.efloat b => some (BindVal.bdouble b)
  | ETerm.eatom a =>
    if a = "undefined" then some BindVal.bnull
    else some (BindVal.btext (strBytes a))
  | ETerm.elist ts =>
    match iolistFlatL ts with
    | some bs =>
      if 0 ∈ bs then some (BindVal.bblob bs) else some (BindVal.btext bs)
    | none => none
  | ETerm.ebinary bs => some (BindVal.bblob bs)
  | _ => none

/-- Claim-side transcription of C4's positional binding: values are bound in
list order at 1-based positions, stopping at the first value of unrecognized
shape. -/
def bindClaimEvents : List ETerm → Nat → List HEvent
  | [], _ => []
  | c :: cs, i =>
    match bind_cell_classify c with
    | none => []
    | some v => HEvent.bindCall (i + 1) v :: bindClaimEvents cs (i + 1)

/-- Claim-side result of C4's binding pass: `ok` when every value is of a
recognized shape, and the wrong-type error as soon as one is not. -/
def bindClaimResult (vs : List ETerm) : Answer :=
  if vs.all (fun c => (bind_cell_classify c).isSome) then Answer.atomA "ok"
  else Answer.errA "wrong_type"

/-- Claim-side transcription of C7's step outcome: done marker, busy marker
(no internal retry), a materialized row of the statement's column values, or
an error for any other engine status. -/
def stepClaim (rc : StepRc) (cols : List ColVal) : Answer :=
  match rc with
  | StepRc.sdone => Answer.atomA "$done"
  | StepRc.sbusy => Answer.atomA "$busy"
  | StepRc.srow => Answer.rowA (cols.map make_cell)
  | StepRc.sother _ => Answer.errA "unexpected_return_value"

/-- The destructor sequence exactly as C6 states it: push one stop command,
join the worker thread, destroy the queue, then close the engine handle if
still open. -/
def destructClaimTrace (dbOpen : Bool) : List DEvent :=
  [DEvent.qpush CmdType.cstop, DEvent.threadJoin, DEvent.qdestroy]
    ++ (if dbOpen then [DEvent.engClose] else [])

/-- A concrete engine for witnesses: everything succeeds. -/
def eng0 : Engine where
  open_rc := fun _ => Except.ok 1
  exec_ok := fun _ _ => true
  close_rc := fun _ => true
  prepare_rc := fun _ _ _ => PrepRc.pok (some 5)
  step_rc := fun _ => StepRc.sdone
  bind_rc := fun _ _ _ => 0
  param_count := fun _ => 1
  columns := fun _ => []
  colnames := fun _ => []
  errmsg := fun _ => "database is locked"

/-- A concrete engine whose prepare always reports busy. -/
def engBusy : Engine :=
  { eng0 with prepare_rc := fun _ _ _ => PrepRc.pbusy }

/-- A concrete engine whose open always fails. -/
def engOpenFail : Engine :=
  { eng0 with open_rc := fun _ => Except.error "unable to open database file" }

/-- A statement resource with a live connection and queue but a null
prepared-statement pointer. -/
def stmtNullSt : StmtSt where
  statement := none
  connection := some { hasCommands := true }

/-- A statement resource with a live connection, queue and prepared
statement. -/
def stmtLiveSt : StmtSt where
  statement := some 4
  connection := some { hasCommands := true }

/-- The command that `esqlite_bind` builds for `stmtNullSt` with token
`#Ref<1>`, destination pid 2 and the (non-list) payload `5`. -/
def cmdBindBadArg : Cmd where
  type := CmdType.cbind
  ref := ETerm.eref 1
  pid := 2
  arg := ETerm.eint 5
  stmt := some 4

/-- The command that `esqlite_bind` builds for `stmtNullSt` with token
`#Ref<1>`, destination pid 2 and payload `[]`. -/
def cmdBindNullStmt : Cmd where
  type := CmdType.cbind
  ref := ETerm.eref 1
  pid := 2
  arg := ETerm.elist []
  stmt := none

/-- A concrete exec command used in closed evaluations. -/
def cmdExec1 : Cmd where
  type := CmdType.cexec
  ref := ETerm.eref 7
  pid := 3
  arg := ETerm.ebinary [115]
  stmt := none

/-- A second concrete exec command. -/
def cmdExec2 : Cmd where
  type := CmdType.cexec
  ref := ETerm.eref 8
  pid := 3
  arg := ETerm.ebinary [116]
  stmt := none

/-- A concrete stop command. -/
def cmdStop1 : Cmd where
  type := CmdType.cstop
  ref := ETerm.eint 0
  pid := 0
  arg := ETerm.eint 0
  stmt := none

/-- Numbers of microseconds slept, in order, in a handler event trace. -/
def sleepsOf (es : List HEvent) : List Nat :=
  es.filterMap (fun e => match e with | HEvent.sleepCall u => some u | _ => none)

theorem cstrlen_eq_length_iff (bs : List Nat) : cstrlen bs = bs.length ↔ ¬ 0 ∈ bs := by
  induction bs with
  | nil => simp [cstrlen]
  | cons b bs ih =>
    by_cases hb : b = 0
    · subst hb
      simp [cstrlen]
    · simp [cstrlen, hb, Ne.symm hb, Nat.add_right_cancel_iff, ih]

theorem bindLoop_all_ok (eng : Engine) (db stmt : Option Nat)
    (hrc : ∀ i v, eng.bind_rc stmt i v = 0) :
    ∀ (vs : List ETerm) (i : Nat),
      bindLoop eng db stmt vs i = (bindClaimResult vs, bindClaimEvents vs i) := by
  intro vs
  induction vs with
  | nil => intro i; simp [bindLoop, bindClaimResult, bindClaimEvents]
  | cons c cs ih =>
    intro i
    cases hcv : bind_cell_classify c with
    | none => simp [bindLoop, bindClaimResult, bindClaimEvents, hcv]
    | some v =>
      have h0 := hrc (i + 1) v
      simp [bindLoop, bindClaimResult, bindClaimEvents, hcv, h0, ih (i + 1)]

theorem runLoop_append_stop (eng : Engine) (stopc : Cmd)
    (hstop : stopc.type = CmdType.cstop) (rest : List Cmd) :
    ∀ (pre : List Cmd) (conn : WConn), (∀ c ∈ pre, c.type ≠ CmdType.cstop) →
      runLoop eng conn (pre ++ stopc :: rest) = runLoop eng conn pre := by
  intro pre
  induction pre with
  | nil => intro conn _; simp [runLoop, hstop]
  | cons c cs ih =>
    intro conn hpre
    have hc : ¬ c.type = CmdType.cstop := hpre c (by simp)
    simp only [List.cons_append, runLoop, if_neg hc, List.append_eq]
    rw [ih _ (fun d hd => hpre d (by simp [hd]))]

theorem runLoop_length (eng : Engine) :
    ∀ (cmds : List Cmd) (conn : WConn), (∀ c ∈ cmds, c.type ≠ CmdType.cstop) →
      (runLoop eng conn cmds).1.length = cmds.length := by
  intro cmds
  induction cmds with
  | nil => intro conn _; simp [runLoop]
  | cons c cs ih =>
    intro conn h
    have hc : ¬ c.type = CmdType.cstop := h c (by simp)
    simp [runLoop, if_neg hc, ih _ (fun d hd => h d (by simp [hd]))]

theorem runLoop_getElem (eng : Engine) :
    ∀ (cmds : List Cmd) (conn : WConn), (∀ c ∈ cmds, c.type ≠ CmdType.cstop) →
      ∀ i : Nat,
        ((runLoop eng conn cmds).1)[i]? =
          (cmds[i]?).map (fun c =>
            { pid := c.pid, ref := c.ref,
              ans := (evaluate_command eng c (stateAfter eng conn (cmds.take i))).1 }) := by
  intro cmds
  induction cmds with
  | nil => intro conn _ i; simp [runLoop]
  | cons c cs ih =>
    intro conn h i
    have hc : ¬ c.type = CmdType.cstop := h c (by simp)
    cases i with
    | zero => simp [runLoop, if_neg hc, stateAfter]
    | succ j =>
      simp [runLoop, if_neg hc, stateAfter,
        ih _ (fun d hd => h d (by simp [hd])) j]

theorem prepareLoop_calls_le (rcOf : Nat → PrepRc) :
    ∀ (rem retries : Nat), (prepareLoop rcOf retries rem).2.1 ≤ rem + 1 := by
  intro rem
  induction rem with
  | zero => intro r; simp [prepareLoop]
  | succ m ih =>
    intro r
    by_cases hb : rcOf r = PrepRc.pbusy
    · simp only [prepareLoop, hb, if_pos rfl]
      exact Nat.succ_le_succ (ih (r + 1))
    · simp [prepareLoop, hb]

theorem prepareLoop_all_busy (rcOf : Nat → PrepRc)
    (hb : ∀ k, rcOf k = PrepRc.pbusy) :
    ∀ (rem retries : Nat),
      (prepareLoop rcOf retries rem).1 = PrepRc.pbusy ∧
      (prepareLoop rcOf retries rem).2.1 = rem + 1 := by
  intro rem
  induction rem with
  | zero => intro r; simp [prepareLoop, hb r]
  | succ m ih =>
    intro r
    simp [prepareLoop, hb r, (ih (r + 1)).1, (ih (r + 1)).2]

theorem prepareLoop_sleeps (rcOf : Nat → PrepRc) :
    ∀ (rem retries : Nat),
      sleepsOf (prepareLoop rcOf retries rem).2.2 =
        (List.range' retries ((prepareLoop rcOf retries rem).2.1)).map
          (fun k => k * 100) := by
  intro rem
  induction rem with
  | zero => intro r; simp [prepareLoop, sleepsOf, List.range']
  | succ m ih =>
    intro r
    by_cases hb : rcOf r = PrepRc.pbusy
    · have ih' := ih (r + 1)
      simp only [sleepsOf] at ih' ⊢
      simp [prepareLoop, hb, List.range'_succ, ih']
    · simp [prepareLoop, hb, sleepsOf, List.range']

/-- C1: the source of `evaluate_command` computes the `database_not_open`
error tuple when `conn->db` is null but discards it (the statement has no
`return`), so a non-stop command executed with a null engine handle is still
dispatched to its per-kind handler and the reply carries the handler's
result, not the database-not-open error.  Concretely, an exec command run on
a connection whose handle is null is answered with the handler's `ok`, and
`evaluate_command` on such a command is exactly the `do_exec` handler call
with the null handle. -/
theorem C1_null_db_reaches_handler :
    (esqlite_connection_run eng0 { db := none, alive := false } [cmdExec1]).1
      = [{ pid := 3, ref := ETerm.eref 7, ans := Answer.atomA "ok" }]
  ∧ (evaluate_command eng0 cmdExec1 { db := none, alive := true }).1
      = do_exec eng0 { db := none, alive := true } cmdExec1.arg
  ∧ Answer.atomA "ok" ≠ Answer.errA "database_not_open" := by
  refine ⟨rfl, rfl, by decide⟩

/-- C7: the reply of a step command is a tagged outcome determined by the
engine's step status — the done marker on done, the busy marker on busy
(with no internal retry: exactly one engine step call is made), a
materialized row of the statement's column values on row, and an error for
any other engine status. -/
theorem C7_do_step_outcomes (eng : Engine) (stmt : Option Nat) :
    do_step eng stmt
      = (stepClaim (eng.step_rc stmt) (eng.columns stmt), [HEvent.stepCall]) := by
  cases h : eng.step_rc stmt <;> simp [do_step, stepClaim, h]

/-- C10: `bind_cell` classifies a value by trying shapes in the fixed order
integer, double, atom, iolist-binary; an integer binds as an engine integer,
a double as a float, the atom `undefined` as SQL NULL, any other atom as its
text, a list whose flattened bytes contain no NUL (so that `strlen` equals
the byte count) as text, any other iolist-binary as a blob, and anything
else is the unrecognized-shape failure. -/
theorem C10_bind_cell_classification (cell : ETerm) :
    bind_cell_classify cell = bind_cell_claim cell := by
  cases cell with
  | elist ts =>
    simp only [bind_cell_classify, bind_cell_claim, enif_get_int, enif_get_double,
      enif_get_atom, enif_inspect_iolist_as_binary, enif_is_list]
    cases h : iolistFlatL ts with
    | none => rfl
    | some bs =>
      by_cases h0 : (0 : Nat) ∈ bs
      · have hne : ¬ cstrlen bs = bs.length := by
          rw [cstrlen_eq_length_iff]
          simpa using h0
        simp [hne, h0]
      · have heq : cstrlen bs = bs.length := (cstrlen_eq_length_iff bs).2 h0
        simp [heq, h0]
  | ebinary bs =>
    simp [bind_cell_classify, bind_cell_claim, enif_get_int, enif_get_double,
      enif_get_atom, enif_inspect_iolist_as_binary, enif_is_list]
  | eint n => rfl
  | efloat b => rfl
  | eatom s => rfl
  | eref n => rfl
  | epid n => rfl
  | etuple ts => rfl
  | eresConn c => rfl
  | eresStmt s => rfl

/-- C6 counterexample: connection-handle destruction does not perform
exactly the claimed push/join/destroy/close sequence — the source
additionally passes the stop command to `queue_send` (and destroys the
thread opts) between the push and the join, so the actual trace differs
from the claimed one and contains a `queue_send` queue operation. -/
theorem C6_destructor_counterexample :
    destruct_esqlite_connection true ≠ destructClaimTrace true
  ∧ DEvent.qsend CmdType.cstop ∈ destruct_esqlite_connection true := by
  constructor
  · decide
  · decide

/-- C6 (amended): destruction pushes one stop command, additionally passes
the same command to `queue_send`, joins the worker thread, destroys the
thread opts, destroys the queue, then closes the engine handle if it is
still open; no queue operation occurs after the join other than the
destroy. -/
theorem C6_destructor_sequence :
    (destruct_esqlite_connection true
      = [DEvent.qpush CmdType.cstop, DEvent.qsend CmdType.cstop,
         DEvent.threadJoin, DEvent.threadOptsDestroy, DEvent.qdestroy,
         DEvent.engClose]
    ∧ destruct_esqlite_connection false
      = [DEvent.qpush CmdType.cstop, DEvent.qsend CmdType.cstop,
         DEvent.threadJoin, DEvent.threadOptsDestroy, DEvent.qdestroy])
  ∧ (((destruct_esqlite_connection true).dropWhile
        (fun e => e ≠ DEvent.threadJoin)).filter isQueueOp
      = [DEvent.qdestroy]
    ∧ ((destruct_esqlite_connection false).dropWhile
        (fun e => e ≠ DEvent.threadJoin)).filter isQueueOp
      = [DEvent.qdestroy]) := by
  exact ⟨⟨rfl, rfl⟩, by decide, by decide⟩

/-- C5 counterexample: against a persistently busy engine the prepare loop
makes 101 compilation attempts (the initial attempt plus 100 retries), not
100 — the source bound is the post-incremented `retries++ < 100`. -/
theorem C5_attempt_count_counterexample :
    (prepareRun (engBusy.prepare_rc (some 1) [])).2.1 = 101
  ∧ ¬ (prepareRun (engBusy.prepare_rc (some 1) [])).2.1 ≤ 100 := by
  constructor
  · decide
  · decide

/-- C5 (amended): `do_prepare` retries while the engine reports busy, with
incrementally increasing backoff (the sleeps form the strictly increasing
sequence 0, 100, 200, ... microseconds); it makes at most 101 compilation
attempts (the initial attempt plus up to 100 retries) and never retries
unboundedly; if the engine is still busy after the last attempt, exactly 101
attempts were made and the reply is a hard sqlite3 error. -/
theorem C5_prepare_retry_bound (eng : Engine) (db : Option Nat)
    (sql : List Nat) :
    (prepareRun (eng.prepare_rc db sql)).2.1 ≤ 101
  ∧ sleepsOf (prepareRun (eng.prepare_rc db sql)).2.2
      = (List.range (prepareRun (eng.prepare_rc db sql)).2.1).map
          (fun k => k * 100)
  ∧ ((∀ k, eng.prepare_rc db sql k = PrepRc.pbusy) →
      (prepareRun (eng.prepare_rc db sql)).2.1 = 101
      ∧ ∀ (conn : WConn) (arg : ETerm), conn.db = db →
          (enif_inspect_iolist_as_binary arg).getD [] = sql →
          (do_prepare eng conn arg).1 = Answer.sqlerrA (eng.errmsg db)) := by
  refine ⟨prepareLoop_calls_le _ 100 0, ?_, ?_⟩
  · have h := prepareLoop_sleeps (eng.prepare_rc db sql) 100 0
    rw [prepareRun, h, List.range_eq_range']
  · intro hb
    have h1 := prepareLoop_all_busy (eng.prepare_rc db sql) hb 100 0
    refine ⟨h1.2, ?_⟩
    intro conn arg hdb harg
    have hfst : (prepareRun (eng.prepare_rc db sql)).1 = PrepRc.pbusy := h1.1
    simp only [do_prepare, hdb, harg]
    rw [hfst]

/-- C5 witness: the amended bound at a concrete always-busy engine. -/
theorem C5_prepare_retry_bound_witness :
    (prepareRun (engBusy.prepare_rc (some 1) [])).2.1 ≤ 101
  ∧ (do_prepare engBusy { db := some 1, alive := true } (ETerm.ebinary [])).1
      = Answer.sqlerrA "database is locked" :=
  ⟨(C5_prepare_retry_bound engBusy (some 1) []).1,
   ((C5_prepare_retry_bound engBusy (some 1) []).2.2 (fun _ => rfl)).2
     { db := some 1, alive := true } (ETerm.ebinary []) rfl rfl⟩

/-- C4: for a prepared statement and a bind value list, a length different
from the statement's parameter count yields the arity error with no engine
mutation at all (no reset, no bind call); equal lengths reset the statement
first and bind the values positionally in list order at 1-based positions,
stopping at the first value of unrecognized shape with the wrong-type
error (stated for engines whose accepted binds succeed, as sqlite's do
outside of resource exhaustion). -/
theorem C4_do_bind_arity_and_order (eng : Engine) (db stmt : Option Nat)
    (vals : List ETerm) (hrc : ∀ i v, eng.bind_rc stmt i v = 0) :
    (eng.param_count stmt ≠ vals.length →
      do_bind eng db stmt (ETerm.elist vals)
        = (Answer.errA "args_wrong_length", []))
  ∧ (eng.param_count stmt = vals.length →
      do_bind eng db stmt (ETerm.elist vals)
        = (bindClaimResult vals, HEvent.stmtReset :: bindClaimEvents vals 0)) := by
  constructor
  · intro hne
    simp [do_bind, enif_get_list_length, hne]
  · intro he
    simp [do_bind, enif_get_list_length, he, listElems,
      bindLoop_all_ok eng db stmt hrc vals 0]

/-- C4 witness: concrete arity mismatch (no events) and a concrete
equal-length bind (reset followed by the positional bind). -/
theorem C4_do_bind_witness :
    do_bind eng0 (some 1) (some 4) (ETerm.elist [])
      = (Answer.errA "args_wrong_length", [])
  ∧ do_bind eng0 (some 1) (some 4) (ETerm.elist [ETerm.eint 3])
      = (Answer.atomA "ok",
         [HEvent.stmtReset, HEvent.bindCall 1 (BindVal.bint 3)]) := by
  constructor
  · exact (C4_do_bind_arity_and_order eng0 (some 1) (some 4) []
      (fun _ _ => rfl)).1 (by decide)
  · have h := (C4_do_bind_arity_and_order eng0 (some 1) (some 4)
      [ETerm.eint 3] (fun _ _ => rfl)).2 (by decide)
    rw [h]
    rfl

/-- C8: when the engine open call fails, `do_open` closes the
partially-opened handle, leaves the connection's engine-handle field null,
and replies with the engine's own error text; on success the field holds the
opened handle and the reply is `ok`. -/
theorem C8_do_open_failure_and_success (eng : Engine) (conn : WConn)
    (arg : ETerm) (filename : List Nat)
    (hs : enif_get_string arg = some filename) :
    (∀ msg, eng.open_rc filename = Except.error msg →
      do_open eng conn arg
        = (Answer.sqlerrA msg, { conn with db := none },
           [HEvent.engOpen filename, HEvent.engCloseHandle]))
  ∧ (∀ hdl, eng.open_rc filename = Except.ok hdl →
      do_open eng conn arg
        = (Answer.atomA "ok", { conn with db := some hdl },
           [HEvent.engOpen filename])) := by
  constructor
  · intro msg hm
    simp [do_open, hs, hm]
  · intro hdl hh
    simp [do_open, hs, hh]

/-- C8 witness: a concrete failing open (handle closed, field null, engine
text reported) and a concrete successful open. -/
theorem C8_do_open_witness :
    do_open engOpenFail { db := none, alive := true }
        (ETerm.elist [ETerm.eint 120])
      = (Answer.sqlerrA "unable to open database file",
         { db := none, alive := true },
         [HEvent.engOpen [120], HEvent.engCloseHandle])
  ∧ do_open eng0 { db := none, alive := true } (ETerm.elist [ETerm.eint 120])
      = (Answer.atomA "ok", { db := some 1, alive := true },
         [HEvent.engOpen [120]]) := by
  constructor
  · exact (C8_do_open_failure_and_success engOpenFail
      { db := none, alive := true } (ETerm.elist [ETerm.eint 120]) [120]
      rfl).1 "unable to open database file" rfl
  · exact (C8_do_open_failure_and_success eng0
      { db := none, alive := true } (ETerm.elist [ETerm.eint 120]) [120]
      rfl).2 1 rfl

/-- C3: in the worker loop, a stop command terminates the loop without any
reply (the replies of a queue prefix followed by a stop and arbitrary
further commands are exactly the replies of the prefix); every non-stop
command of the prefix causes exactly one reply (one reply per command,
regardless of whether the result is an error), sent to the command's reply
destination and pairing the command's correlation token with the handler
result computed in the state the loop reached at that command. -/
theorem C3_worker_loop (eng : Engine) (conn : WConn) (pre rest : List Cmd)
    (stopc : Cmd) (hstop : stopc.type = CmdType.cstop)
    (hpre : ∀ c ∈ pre, c.type ≠ CmdType.cstop) :
    (esqlite_connection_run eng conn (pre ++ stopc :: rest)).1
      = (esqlite_connection_run eng conn pre).1
  ∧ (esqlite_connection_run eng conn pre).1.length = pre.length
  ∧ ∀ i : Nat,
      ((esqlite_connection_run eng conn pre).1)[i]? =
        (pre[i]?).map (fun c =>
          { pid := c.pid, ref := c.ref,
            ans := (evaluate_command eng c
              (stateAfter eng { conn with alive := true } (pre.take i))).1 }) := by
  refine ⟨?_, ?_, ?_⟩
  · show (runLoop eng { conn with alive := true } (pre ++ stopc :: rest)).1
      = (runLoop eng { conn with alive := true } pre).1
    rw [runLoop_append_stop eng stopc hstop rest pre _ hpre]
  · exact runLoop_length eng pre _ hpre
  · exact runLoop_getElem eng pre _ hpre

/-- C3 witness: a concrete prefix of one exec command followed by a stop and
a further command — the stop yields no reply, the later command is not
executed, the prefix command is answered exactly once. -/
theorem C3_worker_loop_witness :
    (esqlite_connection_run eng0 { db := some 1, alive := false }
        ([cmdExec1] ++ cmdStop1 :: [cmdExec2])).1
      = (esqlite_connection_run eng0 { db := some 1, alive := false }
          [cmdExec1]).1
  ∧ (esqlite_connection_run eng0 { db := some 1, alive := false }
      [cmdExec1]).1.length = 1 := by
  have h := C3_worker_loop eng0 { db := some 1, alive := false }
    [cmdExec1] [cmdExec2] cmdStop1 rfl
    (by intro c hc; rw [List.mem_singleton] at hc; subst hc; decide)
  exact ⟨h.1, h.2.1⟩

theorem esqlite_open_ok_or_empty (argv : List ETerm) :
    (esqlite_open argv).1 = SyncRet.okS ∨ (esqlite_open argv).2 = [] := by
  unfold esqlite_open
  repeat' split
  all_goals simp

theorem esqlite_exec_ok_or_empty (argv : List ETerm) :
    (esqlite_exec argv).1 = SyncRet.okS ∨ (esqlite_exec argv).2 = [] := by
  unfold esqlite_exec
  repeat' split
  all_goals simp

theorem esqlite_prepare_ok_or_empty (argv : List ETerm) :
    (esqlite_prepare argv).1 = SyncRet.okS ∨ (esqlite_prepare argv).2 = [] := by
  unfold esqlite_prepare
  repeat' split
  all_goals simp

theorem esqlite_bind_ok_or_empty (argv : List ETerm) :
    (esqlite_bind argv).1 = SyncRet.okS ∨ (esqlite_bind argv).2 = [] := by
  unfold esqlite_bind
  repeat' split
  all_goals simp

theorem esqlite_step_ok_or_empty (argv : List ETerm) :
    (esqlite_step argv).1 = SyncRet.okS ∨ (esqlite_step argv).2 = [] := by
  unfold esqlite_step
  repeat' split
  all_goals simp

theorem esqlite_column_names_ok_or_empty (argv : List ETerm) :
    (esqlite_column_names argv).1 = SyncRet.okS ∨
      (esqlite_column_names argv).2 = [] := by
  unfold esqlite_column_names
  repeat' split
  all_goals simp

theorem esqlite_close_ok_or_empty (argv : List ETerm) :
    (esqlite_close argv).1 = SyncRet.okS ∨ (esqlite_close argv).2 = [] := by
  unfold esqlite_close
  repeat' split
  all_goals simp

theorem dispatch_ok_or_empty (op : Op) (argv : List ETerm) :
    (dispatch op argv).1 = SyncRet.okS ∨ (dispatch op argv).2 = [] := by
  cases op with
  | op_open => exact esqlite_open_ok_or_empty argv
  | op_exec => exact esqlite_exec_ok_or_empty argv
  | op_prepare => exact esqlite_prepare_ok_or_empty argv
  | op_bind => exact esqlite_bind_ok_or_empty argv
  | op_step => exact esqlite_step_ok_or_empty argv
  | op_column_names => exact esqlite_column_names_ok_or_empty argv
  | op_close => exact esqlite_close_ok_or_empty argv

/-- C2 counterexample: the operation-specific payload is not validated
synchronously.  A bind call whose value-list argument has the wrong shape
(an integer instead of a list) is accepted synchronously and enqueued, and
the worker later answers it with an asynchronous `bad_arg_list` error reply
— so a wrong-shaped argument is neither rejected before enqueue nor free of
an asynchronous reply. -/
theorem C2_payload_counterexample :
    esqlite_bind [ETerm.eresStmt stmtLiveSt, ETerm.eref 1, ETerm.epid 2,
        ETerm.eint 5]
      = (SyncRet.okS, [cmdBindBadArg])
  ∧ (esqlite_connection_run eng0 { db := some 1, alive := false }
        [cmdBindBadArg]).1
      = [{ pid := 2, ref := ETerm.eref 1, ans := Answer.errA "bad_arg_list" }] :=
  ⟨rfl, rfl⟩

/-- C2 (amended): for every public operation, a synchronous error means
nothing was pushed onto the queue (so a synchronously rejected request never
gets an asynchronous reply); and, in particular, with a well-typed handle a
call whose token is not a reference fails synchronously with `invalid_ref`
and pushes nothing, and a call whose token is a reference but whose
destination is not a local pid fails synchronously with `invalid_pid` and
pushes nothing, for all seven operations.  (The operation-specific payload is
not validated synchronously; a wrong-shaped payload is enqueued and reported
as an asynchronous error reply.) -/
theorem C2_sync_validation (c : ConnSt) (s : StmtSt)
    (tok dest payload : ETerm) (rn : Nat) :
    (∀ (op : Op) (argv : List ETerm),
      (dispatch op argv).1 ≠ SyncRet.okS → (dispatch op argv).2 = [])
  ∧ (enif_is_ref tok = false →
      esqlite_open [ETerm.eresConn c, tok, dest, payload]
          = (SyncRet.errS "invalid_ref", [])
      ∧ esqlite_exec [ETerm.eresConn c, tok, dest, payload]
          = (SyncRet.errS "invalid_ref", [])
      ∧ esqlite_prepare [ETerm.eresConn c, tok, dest, payload]
          = (SyncRet.errS "invalid_ref", [])
      ∧ esqlite_bind [ETerm.eresStmt s, tok, dest, payload]
          = (SyncRet.errS "invalid_ref", [])
      ∧ esqlite_step [ETerm.eresStmt s, tok, dest]
          = (SyncRet.errS "invalid_ref", [])
      ∧ esqlite_column_names [ETerm.eresStmt s, tok, dest]
          = (SyncRet.errS "invalid_ref", [])
      ∧ esqlite_close [ETerm.eresConn c, tok, dest]
          = (SyncRet.errS "invalid_ref", []))
  ∧ (enif_get_local_pid dest = none →
      esqlite_open [ETerm.eresConn c, ETerm.eref rn, dest, payload]
          = (SyncRet.errS "invalid_pid", [])
      ∧ esqlite_exec [ETerm.eresConn c, ETerm.eref rn, dest, payload]
          = (SyncRet.errS "invalid_pid", [])
      ∧ esqlite_prepare [ETerm.eresConn c, ETerm.eref rn, dest, payload]
          = (SyncRet.errS "invalid_pid", [])
      ∧ esqlite_bind [ETerm.eresStmt s, ETerm.eref rn, dest, payload]
          = (SyncRet.errS "invalid_pid", [])
      ∧ esqlite_step [ETerm.eresStmt s, ETerm.eref rn, dest]
          = (SyncRet.errS "invalid_pid", [])
      ∧ esqlite_column_names [ETerm.eresStmt s, ETerm.eref rn, dest]
          = (SyncRet.errS "invalid_pid", [])
      ∧ esqlite_close [ETerm.eresConn c, ETerm.eref rn, dest]
          = (SyncRet.errS "invalid_pid", [])) := by
  refine ⟨?_, ?_, ?_⟩
  · intro op argv h
    exact (dispatch_ok_or_empty op argv).resolve_left h
  · intro htok
    refine ⟨?_, ?_, ?_, ?_, ?_, ?_, ?_⟩ <;>
      simp [esqlite_open, esqlite_exec, esqlite_prepare, esqlite_bind,
        esqlite_step, esqlite_column_names, esqlite_close, htok]
  · intro hpid
    refine ⟨?_, ?_, ?_, ?_, ?_, ?_, ?_⟩ <;>
      simp [esqlite_open, esqlite_exec, esqlite_prepare, esqlite_bind,
        esqlite_step, esqlite_column_names, esqlite_close, enif_is_ref, hpid]

/-- C2 witness: a concrete non-reference token rejected with `invalid_ref`
and a concrete non-pid destination rejected with `invalid_pid`, both with
nothing pushed. -/
theorem C2_sync_validation_witness :
    esqlite_open [ETerm.eresConn { hasCommands := true }, ETerm.eint 0,
        ETerm.epid 1, ETerm.eatom "f"]
      = (SyncRet.errS "invalid_ref", [])
  ∧ esqlite_step [ETerm.eresStmt stmtLiveSt, ETerm.eref 1, ETerm.eatom "x"]
      = (SyncRet.errS "invalid_pid", []) :=
  ⟨((C2_sync_validation { hasCommands := true } stmtLiveSt (ETerm.eint 0)
      (ETerm.epid 1) (ETerm.eatom "f") 0).2.1 rfl).1,
   ((C2_sync_validation { hasCommands := true } stmtLiveSt (ETerm.eint 0)
      (ETerm.eatom "x") (ETerm.eatom "f") 1).2.2 rfl).2.2.2.2.1⟩

/-- C9 counterexample: `esqlite_bind` performs no null check on the prepared
statement pointer — a bind on a statement handle whose prepared engine
object is null (but whose connection and queue are live) is accepted
synchronously, a command carrying the null statement pointer is enqueued,
and the worker later sends an asynchronous reply for it. -/
theorem C9_bind_null_statement_counterexample :
    esqlite_bind [ETerm.eresStmt stmtNullSt, ETerm.eref 1, ETerm.epid 2,
        ETerm.elist []]
      = (SyncRet.okS, [cmdBindNullStmt])
  ∧ (esqlite_connection_run eng0 { db := some 1, alive := false }
        [cmdBindNullStmt]).1
      = [{ pid := 2, ref := ETerm.eref 1,
           ans := Answer.errA "args_wrong_length" }] :=
  ⟨rfl, rfl⟩

/-- C9 (amended): for step and list-columns, a null prepared object yields
the synchronous `no_prepared_statement` error, a missing owning connection
yields `no_connection`, and a missing queue yields `no_command_queue`, each
with nothing enqueued; bind likewise yields `no_connection` and
`no_command_queue` synchronously with nothing enqueued, but does not check
the prepared object: a bind on a null statement with a live connection and
queue is accepted and enqueued with a null statement pointer. -/
theorem C9_stmt_dispatch_checks (s : StmtSt) (c : ConnSt) (rn p : Nat)
    (payload : ETerm) :
    (s.statement = none →
      esqlite_step [ETerm.eresStmt s, ETerm.eref rn, ETerm.epid p]
          = (SyncRet.errS "no_prepared_statement", [])
      ∧ esqlite_column_names [ETerm.eresStmt s, ETerm.eref rn, ETerm.epid p]
          = (SyncRet.errS "no_prepared_statement", []))
  ∧ (s.connection = none →
      esqlite_bind [ETerm.eresStmt s, ETerm.eref rn, ETerm.epid p, payload]
        = (SyncRet.errS "no_connection", []))
  ∧ (s.connection = some c → c.hasCommands = false →
      esqlite_bind [ETerm.eresStmt s, ETerm.eref rn, ETerm.epid p, payload]
        = (SyncRet.errS "no_command_queue", []))
  ∧ (∀ k, s.statement = some k → s.connection = none →
      esqlite_step [ETerm.eresStmt s, ETerm.eref rn, ETerm.epid p]
          = (SyncRet.errS "no_connection", [])
      ∧ esqlite_column_names [ETerm.eresStmt s, ETerm.eref rn, ETerm.epid p]
          = (SyncRet.errS "no_connection", []))
  ∧ (∀ k, s.statement = some k → s.connection = some c →
      c.hasCommands = false →
      esqlite_step [ETerm.eresStmt s, ETerm.eref rn, ETerm.epid p]
          = (SyncRet.errS "no_command_queue", [])
      ∧ esqlite_column_names [ETerm.eresStmt s, ETerm.eref rn, ETerm.epid p]
          = (SyncRet.errS "no_command_queue", []))
  ∧ (s.statement = none → s.connection = some c → c.hasCommands = true →
      esqlite_bind [ETerm.eresStmt s, ETerm.eref rn, ETerm.epid p, payload]
        = (SyncRet.okS,
           [{ type := CmdType.cbind, ref := ETerm.eref rn, pid := p,
              arg := payload, stmt := none }])) := by
  refine ⟨?_, ?_, ?_, ?_, ?_, ?_⟩
  · intro h1
    constructor <;>
      simp [esqlite_step, esqlite_column_names, enif_is_ref,
        enif_get_local_pid, h1]
  · intro h1
    simp [esqlite_bind, enif_is_ref, enif_get_local_pid, h1]
  · intro h1 h2
    simp [esqlite_bind, enif_is_ref, enif_get_local_pid, h1, h2]
  · intro k h1 h2
    constructor <;>
      simp [esqlite_step, esqlite_column_names, enif_is_ref,
        enif_get_local_pid, h1, h2]
  · intro k h1 h2 h3
    constructor <;>
      simp [esqlite_step, esqlite_column_names, enif_is_ref,
        enif_get_local_pid, h1, h2, h3]
  · intro h1 h2 h3
    simp [esqlite_bind, enif_is_ref, enif_get_local_pid, h1, h2, h3]

/-- C9 witness: concrete synchronous rejections — a step on a null prepared
object and a bind on a statement with a severed connection. -/
theorem C9_stmt_dispatch_witness :
    esqlite_step [ETerm.eresStmt stmtNullSt, ETerm.eref 1, ETerm.epid 2]
      = (SyncRet.errS "no_prepared_statement", [])
  ∧ esqlite_bind [ETerm.eresStmt { statement := some 4, connection := none },
        ETerm.eref 1, ETerm.epid 2, ETerm.elist []]
      = (SyncRet.errS "no_connection", []) :=
  ⟨((C9_stmt_dispatch_checks stmtNullSt { hasCommands := true } 1 2
      (ETerm.elist [])).1 rfl).1,
   (C9_stmt_dispatch_checks { statement := some 4, connection := none }
      { hasCommands := true } 1 2 (ETerm.elist [])).2.1 rfl⟩
